import Mathlib

/-!
Verification development for the MCU sensor recording pipeline.

The definitions below are a shallow embedding of the Python sources:

* `src/scripts/web_recorder.py` — the MQTT recorder: the CSV durable log
  (`setup_csv_file`, `write_to_csv`), the ingestion callback (`on_message`),
  the session endpoints (`start_recording`, `stop_recording`) and the query
  endpoints (`get_data`, `get_statistics`).
* `src/scripts/PLOT_GUI.py` — the serial worker: `process_serial_line` and
  the outbound command vocabulary (`send_at_command` and its callers).

Conventions of the embedding:

* A JSON frame is parsed by `parseJson`, which models `json.loads` on the
  flat-object frames of the wire schema (string keys; number, string,
  boolean and null values; no nesting, which the wire schema never uses).
  A payload that `json.loads` rejects, or that parses to a non-object (on
  which the subsequent dict operations of `on_message` raise and are caught
  by the same generic handler), is modelled as `none`: both paths log an
  error and leave all state unchanged.
* A CSV cell holding the dict-default empty string is modelled as `none`;
  a cell holding a JSON value v is `some v`.
* Machine floats are modelled as `Rat`; the float value NaN produced by the
  pandas statistics over an all-empty column is modelled by the explicit
  `StatVal.nan` constructor.
* Calls into external libraries that can raise (the CSV write, the MQTT
  connect) are given an explicit boolean outcome parameter, standing for
  whether the library call succeeded.
-/

/-- A JSON value of the flat wire schema. -/
inductive JVal where
  | jnum : Rat → JVal
  | jstr : String → JVal
  | jbool : Bool → JVal
  | jnull : JVal
deriving DecidableEq, Repr

/-- The opening brace character. -/
def lbraceC : Char := Char.ofNat 123

/-- The closing brace character. -/
def rbraceC : Char := Char.ofNat 125

/-- Skip JSON whitespace. -/
def skipWs : List Char → List Char
  | [] => []
  | c :: cs =>
    if c = ' ' ∨ c = '\n' ∨ c = '\t' ∨ c = '\r' then skipWs cs else c :: cs

/-- Split a leading run of decimal digits from the input. -/
def takeDigits : List Char → List Char × List Char
  | [] => ([], [])
  | c :: cs =>
    if c.isDigit then
      let p := takeDigits cs
      (c :: p.1, p.2)
    else ([], c :: cs)

/-- Read the body of a double-quoted JSON string up to the closing quote. -/
def takeStr : List Char → Option (List Char × List Char)
  | [] => none
  | c :: cs =>
    if c = '"' then some ([], cs)
    else (takeStr cs).map (fun p => (c :: p.1, p.2))

/-- Value of a run of decimal digits. -/
def digitsToNat (ds : List Char) : Nat :=
  ds.foldl (fun n c => 10 * n + (c.toNat - 48)) 0

/-- Parse a JSON number (optional minus, digits, optional fraction). -/
def parseNum (cs : List Char) : Option (Rat × List Char) :=
  let sgn : Bool × List Char :=
    match cs with
    | '-' :: r => (true, r)
    | _ => (false, cs)
  match takeDigits sgn.2 with
  | ([], _) => none
  | (ds, rest) =>
    match rest with
    | '.' :: r2 =>
      match takeDigits r2 with
      | ([], _) => none
      | (fs, r3) =>
        let q : Rat := (digitsToNat ds : Rat) + (digitsToNat fs : Rat) / ((10 : Rat) ^ fs.length)
        some (if sgn.1 then -q else q, r3)
    | _ =>
      let q : Rat := (digitsToNat ds : Rat)
      some (if sgn.1 then -q else q, rest)

/-- Parse one JSON value (string, boolean, null or number). -/
def parseValue (cs : List Char) : Option (JVal × List Char) :=
  match skipWs cs with
  | '"' :: r => (takeStr r).map (fun p => (JVal.jstr (String.mk p.1), p.2))
  | 't' :: 'r' :: 'u' :: 'e' :: r => some (JVal.jbool true, r)
  | 'f' :: 'a' :: 'l' :: 's' :: 'e' :: r => some (JVal.jbool false, r)
  | 'n' :: 'u' :: 'l' :: 'l' :: r => some (JVal.jnull, r)
  | r => (parseNum r).map (fun p => (JVal.jnum p.1, p.2))

/-- Parse the members of a JSON object after the opening brace, consuming
the closing brace. Fuelled recursion; the caller passes enough fuel. -/
def parseMembers : Nat → List Char → Option (List (String × JVal) × List Char)
  | 0, _ => none
  | Nat.succ fuel, cs =>
    match skipWs cs with
    | '"' :: r =>
      match takeStr r with
      | none => none
      | some (k, r2) =>
        match skipWs r2 with
        | ':' :: r3 =>
          match parseValue r3 with
          | none => none
          | some (v, r4) =>
            match skipWs r4 with
            | ',' :: r5 =>
              (parseMembers fuel r5).map (fun p => ((String.mk k, v) :: p.1, p.2))
            | c :: r5 =>
              if c = rbraceC then some ([(String.mk k, v)], r5) else none
            | [] => none
        | _ => none
    | _ => none

/-- Model of `json.loads` restricted to the flat-object frames of the wire
schema. Returns the parsed key/value pairs in textual order, or `none` when
the payload is rejected. -/
def parseJson (s : String) : Option (List (String × JVal)) :=
  match skipWs s.data with
  | c :: r =>
    if c = lbraceC then
      let r1 := skipWs r
      match r1 with
      | c2 :: r2 =>
        if c2 = rbraceC then
          if skipWs r2 = [] then some [] else none
        else
          match parseMembers (r1.length + 1) r1 with
          | some (ps, rest) => if skipWs rest = [] then some ps else none
          | none => none
      | [] => none
    else none
  | [] => none

/-- Model of `data.get(k)` on the parsed frame (frames have distinct keys). -/
def jget (data : List (String × JVal)) (k : String) : Option JVal :=
  data.lookup k

/-- One row of the durable CSV log, with one field per column of the
`fieldnames` list of `web_recorder.py`. A cell written as the dict-default
empty string is `none`. -/
structure CsvRow where
  timestamp_received : String
  timestamp_device : Option JVal
  device : JVal
  temperature : Option JVal
  humidity : Option JVal
  pressure : Option JVal
  cooler_running : Option JVal
  cooler_runtime : Option JVal
  total_elapsed_time : Option JVal
  cooler_ever_started : Option JVal
  manual_override : Option JVal
deriving DecidableEq, Repr

/-- The on-disk CSV file: a header line and the data rows in file order. -/
structure CsvFile where
  header : List String
  rows : List CsvRow
deriving DecidableEq, Repr

/-- The `fieldnames` list of `setup_csv_file` and `write_to_csv`. -/
def fieldnames : List String :=
  ["timestamp_received", "timestamp_device", "device",
   "temperature", "humidity", "pressure",
   "cooler_running", "cooler_runtime", "total_elapsed_time",
   "cooler_ever_started", "manual_override"]

/-- `SensorDataRecorder.setup_csv_file`: when the data file does not exist,
create it and write the header; otherwise leave the existing file as it is
(the file is only read back for a line count). -/
def setup_csv_file : Option CsvFile → CsvFile
  | none => { header := fieldnames, rows := [] }
  | some f => f

/-- The `csv_data` dict built by `on_message` from the parsed frame: every
optional field defaults to the empty string, `device` defaults to the
string unknown. -/
def mkCsvRow (data : List (String × JVal)) (now : String) : CsvRow :=
  { timestamp_received := now
    timestamp_device := jget data "timestamp"
    device := (jget data "device").getD (JVal.jstr "unknown")
    temperature := jget data "temperature"
    humidity := jget data "humidity"
    pressure := jget data "pressure"
    cooler_running := jget data "cooler_running"
    cooler_runtime := jget data "cooler_runtime"
    total_elapsed_time := jget data "total_elapsed_time"
    cooler_ever_started := jget data "cooler_ever_started"
    manual_override := jget data "manual_override" }

/-- `SensorDataRecorder.write_to_csv`: open in append mode and write one
row. The boolean argument is the outcome of the underlying file write; on
failure the exception is caught and only a warning is printed, so the
method always returns. The second component is the list of logged error
conditions. -/
def write_to_csv (f : CsvFile) (row : CsvRow) (ok : Bool) : CsvFile × List String :=
  if ok then ({ f with rows := f.rows ++ [row] }, [])
  else (f, ["Failed to write to CSV"])

/-- The mutable fields of `SensorDataRecorder` touched by ingestion. -/
structure RecState where
  last_reading : Option (List (String × JVal) × String)
  total_readings : Nat
deriving DecidableEq, Repr

/-- `SensorDataRecorder.on_message`: decode the payload, and on success
store the last reading, bump the counter and append a CSV row. `now` is
the receive timestamp, `ok` the outcome of the file write. A payload the
JSON decode rejects logs an error and changes nothing. The third component
is the list of logged error conditions. -/
def on_message (s : RecState) (f : CsvFile) (now : String) (ok : Bool) (msg : String) :
    RecState × CsvFile × List String :=
  match parseJson msg with
  | none => (s, f, ["Failed to parse JSON"])
  | some data =>
    let s2 : RecState := { last_reading := some (data, now), total_readings := s.total_readings + 1 }
    let wr := write_to_csv f (mkCsvRow data now) ok
    (s2, wr.1, wr.2)

/-- Outcome tag of a Flask response. -/
inductive RespStatus where
  | ok : RespStatus
  | err : RespStatus
deriving DecidableEq, Repr

/-- A control-endpoint response: status tag, message and HTTP code. -/
structure Response where
  status : RespStatus
  message : String
  code : Nat
deriving DecidableEq, Repr

/-- The module-level state of `web_recorder.py`: the `recording_status`
dict and the optional `recorder_instance`. -/
structure ServerState where
  is_recording : Bool
  start_time : Option String
  recorder : Option RecState
deriving DecidableEq, Repr

/-- The `/api/start` route `start_recording`: reject when already
recording, otherwise create the recorder if needed and run
`connect_and_start` (modelled synchronously; `connectOk` is the outcome of
the MQTT connect, which on success sets the recording flag and start time
and on failure clears the flag; the route itself reports success once the
background start is launched). -/
def start_recording (s : ServerState) (now : String) (connectOk : Bool) :
    ServerState × Response :=
  if s.is_recording then
    (s, { status := RespStatus.err, message := "Recording is already active", code := 400 })
  else
    let rec0 := s.recorder.getD { last_reading := none, total_readings := 0 }
    let s2 : ServerState :=
      if connectOk then
        { is_recording := true, start_time := some now, recorder := some rec0 }
      else
        { is_recording := false, start_time := s.start_time, recorder := some rec0 }
    (s2, { status := RespStatus.ok, message := "Recording started successfully", code := 200 })

/-- The `/api/stop` route `stop_recording`: reject when not recording,
otherwise run the instance method, which stops the client and clears the
recording flag, and report success (also when no instance exists). -/
def stop_recording (s : ServerState) : ServerState × Response :=
  if s.is_recording then
    match s.recorder with
    | some _ =>
      ({ s with is_recording := false },
       { status := RespStatus.ok, message := "Recording stopped successfully", code := 200 })
    | none =>
      (s, { status := RespStatus.ok, message := "Recording stopped successfully", code := 200 })
  else
    (s, { status := RespStatus.err, message := "Recording is not active", code := 400 })

/-- One delivered MQTT message handled at server level: `on_message` runs
on the recorder instance and never touches `recording_status`. -/
def ingest (s : ServerState) (f : CsvFile) (now : String) (ok : Bool) (msg : String) :
    ServerState × CsvFile × List String :=
  match s.recorder with
  | none => (s, f, [])
  | some r =>
    let res := on_message r f now ok msg
    ({ s with recorder := some res.1 }, res.2.1, res.2.2)

/-- Response of the `/api/data` route: status tag, returned rows, row
count and HTTP code. -/
structure DataResponse where
  status : RespStatus
  data : List CsvRow
  total : Nat
  code : Nat
deriving DecidableEq, Repr

/-- Python slicing `data[-limit:]` and pandas `tail(limit)` for a nonzero
integer argument: a positive argument keeps the last that many rows, a
negative one drops that many rows from the front. -/
def pyTail (l : Int) (xs : List α) : List α :=
  if 0 ≤ l then xs.drop (xs.length - l.toNat) else xs.drop (-l).toNat

/-- Lexicographic comparison of character lists. -/
def lexLe : List Char → List Char → Bool
  | [], _ => true
  | _ :: _, [] => false
  | a :: as, b :: bs => if a = b then lexLe as bs else Nat.blt a.toNat b.toNat

/-- Order on the `timestamp_received` strings: for ISO-8601 timestamps of
one fixed format, the datetime comparison done by pandas coincides with
the lexicographic order of the strings. -/
def tsLe (s t : String) : Bool := lexLe s.data t.data

/-- The start-of-range filter of `get_data`: rows at or after `start_date`. -/
def filterStart (sd : Option String) (rows : List CsvRow) : List CsvRow :=
  match sd with
  | none => rows
  | some d => rows.filter (fun r => tsLe d r.timestamp_received)

/-- The end-of-range filter of `get_data`: rows at or before `end_date`. -/
def filterEnd (ed : Option String) (rows : List CsvRow) : List CsvRow :=
  match ed with
  | none => rows
  | some d => rows.filter (fun r => tsLe r.timestamp_received d)

/-- The `/api/data` route `get_data` on its primary (pandas) path: absent
file gives an empty success; otherwise the rows are range-filtered when a
bound is given, then `tail(limit)` is applied when `limit` is truthy
(`None` and `0` are both falsy in the guard). -/
def get_data (file : Option CsvFile) (lim : Option Int) (start_date end_date : Option String) :
    DataResponse :=
  match file with
  | none => { status := RespStatus.ok, data := [], total := 0, code := 200 }
  | some f =>
    let rows1 := filterEnd end_date (filterStart start_date f.rows)
    let rows2 :=
      match lim with
      | none => rows1
      | some l => if l = 0 then rows1 else pyTail l rows1
    { status := RespStatus.ok, data := rows2, total := rows2.length, code := 200 }

/-- The manual CSV fallback path of `get_data`, taken when the pandas read
raises: the `start_date` and `end_date` parameters are in scope but never
consulted, and only `data[-limit:]` is applied when `limit` is truthy. -/
def get_data_fallback (rows : List CsvRow) (lim : Option Int)
    (start_date end_date : Option String) : DataResponse :=
  let d :=
    match lim with
    | none => rows
    | some l => if l = 0 then rows else pyTail l rows
  { status := RespStatus.ok, data := d, total := d.length, code := 200 }

/-- A statistics cell: a number, the float NaN, or Python `None`. -/
inductive StatVal where
  | num : Rat → StatVal
  | nan : StatVal
  | null : StatVal
deriving DecidableEq, Repr

/-- The numeric samples of one CSV column as pandas sees them: empty cells
become NaN and are skipped by `min`, `max` and `mean`; the model covers
logs whose measurement cells are numeric or empty, as the wire schema
prescribes. -/
def colSamples (cells : List (Option JVal)) : List Rat :=
  cells.filterMap (fun c =>
    match c with
    | some (JVal.jnum q) => some q
    | _ => none)

/-- The per-field dict literal built by `get_statistics` for a column that
is present in the data file: exactly the keys min, max and avg. Over zero
numeric samples pandas yields NaN, which `float` passes through. -/
def statsField (cells : List (Option JVal)) : List (String × StatVal) :=
  match colSamples cells with
  | [] => [("min", StatVal.nan), ("max", StatVal.nan), ("avg", StatVal.nan)]
  | q :: qs =>
    [("min", StatVal.num (qs.foldl min q)),
     ("max", StatVal.num (qs.foldl max q)),
     ("avg", StatVal.num ((q :: qs).sum / ((qs.length : Rat) + 1)))]

/-- The per-field dict literal for a column name that is not in the data
file (the membership test fails, so every entry is Python `None`). -/
def statsFieldAbsent : List (String × StatVal) :=
  [("min", StatVal.null), ("max", StatVal.null), ("avg", StatVal.null)]

/-- The statistics object of the `/api/data/stats` route. -/
structure StatsData where
  total_readings : Nat
  first_reading : Option String
  last_reading : Option String
  temperature : List (String × StatVal)
  pressure : List (String × StatVal)
  altitude : List (String × StatVal)
deriving DecidableEq, Repr

/-- The `/api/data/stats` route `get_statistics` on its primary (pandas)
path: absent file gives the all-null object; otherwise a linear scan of
the full log. The temperature and pressure columns are in the recorder
CSV header, the altitude column is not, and no humidity object is built
at all. -/
def get_statistics (file : Option CsvFile) : StatsData :=
  match file with
  | none =>
    { total_readings := 0
      first_reading := none
      last_reading := none
      temperature := statsFieldAbsent
      pressure := statsFieldAbsent
      altitude := statsFieldAbsent }
  | some f =>
    { total_readings := f.rows.length
      first_reading := f.rows.head?.map (fun r => r.timestamp_received)
      last_reading := f.rows.getLast?.map (fun r => r.timestamp_received)
      temperature := statsField (f.rows.map (fun r => r.temperature))
      pressure := statsField (f.rows.map (fun r => r.pressure))
      altitude := statsFieldAbsent }

namespace SerialWorker

/-- `SerialWorker.send_at_command`: the exact line written to the serial
device for a command (the command text with a trailing newline). -/
def send_at_command (command : String) : String := command ++ "\n"

/-- `SerialWorker.cooler_on`. -/
def cooler_on : String := send_at_command "AT+COOLER=ON"

/-- `SerialWorker.cooler_off`. -/
def cooler_off : String := send_at_command "AT+COOLER=OFF"

/-- `SerialWorker.cooler_auto`. -/
def cooler_auto : String := send_at_command "AT+COOLER=AUTO"

/-- `SerialWorker.get_status`. -/
def get_status : String := send_at_command "AT+STATUS"

/-- `SerialWorker.get_data`. -/
def get_data : String := send_at_command "AT+DATA"

/-- `SerialWorker.set_start_temp` (the argument stands for the formatted
threshold value). -/
def set_start_temp (temp : String) : String := send_at_command ("AT+SETSTART=" ++ temp)

/-- `SerialWorker.set_stop_temp`. -/
def set_stop_temp (temp : String) : String := send_at_command ("AT+SETSTOP=" ++ temp)

/-- `SerialWorker.get_thresholds`. -/
def get_thresholds : String := send_at_command "AT+GETTHRESH"

/-- Test of Python startswith against a single character. -/
def startsWithChar (s : String) (c : Char) : Bool :=
  match s.data with
  | [] => false
  | d :: _ => d = c

/-- Test of Python endswith against a single character. -/
def endsWithChar (s : String) (c : Char) : Bool :=
  match s.data.getLast? with
  | none => false
  | some d => d = c

/-- Test that the first list begins with the second. -/
def startsWithList : List Char → List Char → Bool
  | _, [] => true
  | [], _ :: _ => false
  | c :: cs, p :: ps => c = p && startsWithList cs ps

/-- Test of Python startswith against a string. -/
def startsWithStr (s p : String) : Bool := startsWithList s.data p.data

/-- An observable effect of `process_serial_line`: a Qt signal emission or
a console print. -/
inductive Event where
  | dataEmit : List (String × JVal) → Event
  | statusEmit : String → String → Event
  | printed : String → Event
deriving DecidableEq, Repr

/-- The most-recent-500 truncation of the data buffer. -/
def keepLast500 (buf : List (List (String × JVal))) : List (List (String × JVal)) :=
  if buf.length > 500 then buf.drop (buf.length - 500) else buf

/-- `SerialWorker.process_serial_line`: a line that looks like a JSON
object is parsed; with a temperature key the record (with the receive
timestamp added) is buffered, truncated to the last 500, and emitted;
without one nothing happens (the frame is ignored); a parse failure on a
brace-delimited line is printed (it does not carry the ERROR prefix).
Status lines, OK and ERROR acknowledgements are handled separately; any
other line falls through the chain untouched. -/
def process_serial_line (buf : List (List (String × JVal))) (now : String) (line : String) :
    List (List (String × JVal)) × List Event :=
  if startsWithChar line lbraceC && endsWithChar line rbraceC then
    match parseJson line with
    | some data =>
      if (jget data "temperature").isSome then
        let data2 := data ++ [("timestamp_received", JVal.jstr now)]
        let buf2 := keepLast500 (buf ++ [data2])
        (buf2, [Event.dataEmit data2])
      else (buf, [])
    | none => (buf, [Event.printed line])
  else if startsWithStr line "STATUS:" then
    (buf, [Event.statusEmit ((line.drop 7).trim) now])
  else if line = "OK" ∨ line = "ERROR" then
    (buf, [Event.printed line])
  else (buf, [])

end SerialWorker

/-- The range filter as the specification words it: the rows of the log,
in append order, whose `timestamp_received` lies in the given closed
range. Compared against the sequential two-filter code path. -/
def readingsSpec (rows : List CsvRow) (sd ed : Option String) : List CsvRow :=
  rows.filter (fun r =>
    (match sd with
     | none => true
     | some d => tsLe d r.timestamp_received) &&
    (match ed with
     | none => true
     | some d => tsLe r.timestamp_received d))

/-- A log row holding only a receive timestamp. -/
def rowT (t : String) : CsvRow := mkCsvRow [] t

/-- A log row holding a receive timestamp and a temperature sample. -/
def rowTemp (t : String) (q : Rat) : CsvRow := mkCsvRow [("temperature", JVal.jnum q)] t

/-- A log with two temperature samples used to instantiate theorems. -/
def fTwo : CsvFile := { header := fieldnames, rows := [rowTemp "a" 1, rowTemp "b" 3] }

/-- An active server state used to instantiate theorems. -/
def sActive : ServerState :=
  { is_recording := true, start_time := some "t0",
    recorder := some { last_reading := none, total_readings := 3 } }

/-- An idle server state used to instantiate theorems. -/
def sIdle : ServerState :=
  { is_recording := false, start_time := none, recorder := none }

/-- An empty freshly created log file. -/
def fEmpty : CsvFile := { header := fieldnames, rows := [] }

/-- A recorder that has seen no readings yet. -/
def rFresh : RecState := { last_reading := none, total_readings := 0 }

/-- C1: the durable log is append-only and header-once. On first use an
absent log file is created holding exactly the fixed header of the schema
and no rows; an existing file is left untouched, with no second header.
Each successful `write_to_csv` call extends the row list by exactly one
row at the end, and whatever the write outcome, the header and every
pre-existing row are byte-for-byte unchanged. -/
theorem c1_append_only_header_once :
    (setup_csv_file none = { header := fieldnames, rows := [] })
    ∧ (∀ f : CsvFile, setup_csv_file (some f) = f)
    ∧ (∀ (f : CsvFile) (row : CsvRow),
        (write_to_csv f row true).1.rows = f.rows ++ [row]
        ∧ (write_to_csv f row true).1.rows.length = f.rows.length + 1
        ∧ ∀ ok : Bool,
            (write_to_csv f row ok).1.rows.take f.rows.length = f.rows
            ∧ (write_to_csv f row ok).1.header = f.header) := by
  refine ⟨rfl, fun f => rfl, fun f row => ⟨rfl, by simp [write_to_csv], fun ok => ?_⟩⟩
  cases ok <;> simp [write_to_csv, List.take_left]

/-- C2: session-state misuse is rejected synchronously with no state
change. Starting while already recording returns the 400 rejection
"Recording is already active" and the whole server state, in particular
`total_readings` and `last_reading`, is returned unchanged; stopping while
not recording returns the 400 rejection "Recording is not active" with the
state unchanged; and after a successful stop from a recording state a
second stop is rejected. -/
theorem c2_session_misuse (s : ServerState) (now : String) (connectOk : Bool) :
    (s.is_recording = true →
      start_recording s now connectOk
        = (s, { status := RespStatus.err, message := "Recording is already active", code := 400 }))
    ∧ (s.is_recording = false →
      stop_recording s
        = (s, { status := RespStatus.err, message := "Recording is not active", code := 400 }))
    ∧ (s.is_recording = true → s.recorder.isSome = true →
      (stop_recording s).2.status = RespStatus.ok
      ∧ (stop_recording (stop_recording s).1).2
          = { status := RespStatus.err, message := "Recording is not active", code := 400 }) := by
  refine ⟨fun h => ?_, fun h => ?_, fun h h2 => ?_⟩
  · simp [start_recording, h]
  · simp [stop_recording, h]
  · rcases hr : s.recorder with _ | r
    · rw [hr] at h2; cases h2
    · simp [stop_recording, h, hr]

/-- C2 witness: the three rejection behaviours at concrete states. -/
theorem c2_witness :
    sActive.is_recording = true ∧ sIdle.is_recording = false ∧ sActive.recorder.isSome = true
    ∧ start_recording sActive "t1" true
        = (sActive, { status := RespStatus.err, message := "Recording is already active", code := 400 })
    ∧ stop_recording sIdle
        = (sIdle, { status := RespStatus.err, message := "Recording is not active", code := 400 })
    ∧ (stop_recording (stop_recording sActive).1).2
        = { status := RespStatus.err, message := "Recording is not active", code := 400 } :=
  ⟨rfl, rfl, rfl,
   (c2_session_misuse sActive "t1" true).1 rfl,
   (c2_session_misuse sIdle "t1" true).2.1 rfl,
   ((c2_session_misuse sActive "t1" true).2.2 rfl rfl).2⟩

/-- C3: a malformed (non-parseable) frame received while recording appends
no row, leaves `last_reading` and `total_readings` unchanged, logs an
error condition, and `on_message` returns normally (the decode exception
is caught), so ingestion neither crashes nor halts. -/
theorem c3_malformed_frame (s : RecState) (f : CsvFile) (now : String) (ok : Bool)
    (msg : String) (h : parseJson msg = none) :
    on_message s f now ok msg = (s, f, ["Failed to parse JSON"]) := by
  simp [on_message, h]

/-- C3 witness: the truncated frame of the end-to-end scenario. -/
theorem c3_witness :
    parseJson "\x7b\"temperature\":" = none
    ∧ on_message rFresh fEmpty "t0" true "\x7b\"temperature\":"
        = (rFresh, fEmpty, ["Failed to parse JSON"]) :=
  ⟨by decide, c3_malformed_frame rFresh fEmpty "t0" true _ (by decide)⟩

/-- C4: an accepted reading whose frame lacks an optional numeric field
persists the empty cell in that column (never a zero), and a frame lacking
the device field persists device as the string unknown; the row actually
appended by `on_message` is exactly `mkCsvRow data now`. -/
theorem c4_optional_fields (s : RecState) (f : CsvFile) (now msg : String)
    (data : List (String × JVal)) (hp : parseJson msg = some data) :
    (on_message s f now true msg).2.1.rows = f.rows ++ [mkCsvRow data now]
    ∧ (jget data "humidity" = none → (mkCsvRow data now).humidity = none)
    ∧ (jget data "temperature" = none → (mkCsvRow data now).temperature = none)
    ∧ (jget data "pressure" = none → (mkCsvRow data now).pressure = none)
    ∧ (jget data "humidity" = none → (mkCsvRow data now).humidity ≠ some (JVal.jnum 0))
    ∧ (jget data "device" = none → (mkCsvRow data now).device = JVal.jstr "unknown") := by
  refine ⟨by simp [on_message, hp, write_to_csv], fun h => by simp [mkCsvRow, h],
    fun h => by simp [mkCsvRow, h], fun h => by simp [mkCsvRow, h],
    fun h => by simp [mkCsvRow, h], fun h => by simp [mkCsvRow, h]⟩

/-- C4 witness: a frame carrying none of the optional fields persists
empty measurement cells and the unknown device. -/
theorem c4_witness :
    parseJson "\x7b\"foo\":1\x7d" = some [("foo", JVal.jnum 1)]
    ∧ (mkCsvRow [("foo", JVal.jnum 1)] "t0").humidity = none
    ∧ (mkCsvRow [("foo", JVal.jnum 1)] "t0").device = JVal.jstr "unknown"
    ∧ (on_message rFresh fEmpty "t0" true "\x7b\"foo\":1\x7d").2.1.rows
        = [] ++ [mkCsvRow [("foo", JVal.jnum 1)] "t0"] :=
  ⟨by decide,
   (c4_optional_fields rFresh fEmpty "t0" "\x7b\"foo\":1\x7d" [("foo", JVal.jnum 1)]
     (by decide)).2.1 (by decide),
   (c4_optional_fields rFresh fEmpty "t0" "\x7b\"foo\":1\x7d" [("foo", JVal.jnum 1)]
     (by decide)).2.2.2.2.2 (by decide),
   (c4_optional_fields rFresh fEmpty "t0" "\x7b\"foo\":1\x7d" [("foo", JVal.jnum 1)]
     (by decide)).1⟩

/-- C5 counterexample: the recorder variant refutes the claim. The frame
carrying only a foo key is a well-formed structured frame with no
recognizable measurement field, yet `on_message` counts it (the total goes
from zero to one) and persists a row for it, so such frames are not
classified as ignored across the pipeline. -/
theorem c5_counterexample :
    parseJson "\x7b\"foo\":1\x7d" = some [("foo", JVal.jnum 1)]
    ∧ jget [("foo", JVal.jnum 1)] "temperature" = none
    ∧ jget [("foo", JVal.jnum 1)] "humidity" = none
    ∧ jget [("foo", JVal.jnum 1)] "pressure" = none
    ∧ (on_message rFresh fEmpty "t0" true "\x7b\"foo\":1\x7d").1.total_readings = 1
    ∧ (on_message rFresh fEmpty "t0" true "\x7b\"foo\":1\x7d").2.1.rows.length = 1 := by
  decide

/-- C5 amended: only the serial decoder (`process_serial_line`) classifies
a structured frame without a recognized measurement field as ignored — it
is not buffered and not emitted — while a frame with a temperature field
is buffered (most recent 500) and emitted; the message-bus recorder
(`on_message`), by contrast, counts and persists every parseable
structured frame whether or not it carries a measurement field. -/
theorem c5_amended_decoder (buf : List (List (String × JVal))) (now line : String)
    (data : List (String × JVal))
    (hs : SerialWorker.startsWithChar line lbraceC = true)
    (he : SerialWorker.endsWithChar line rbraceC = true)
    (hp : parseJson line = some data) :
    (jget data "temperature" = none →
      SerialWorker.process_serial_line buf now line = (buf, []))
    ∧ (∀ v : JVal, jget data "temperature" = some v →
      SerialWorker.process_serial_line buf now line
        = (SerialWorker.keepLast500 (buf ++ [data ++ [("timestamp_received", JVal.jstr now)]]),
           [SerialWorker.Event.dataEmit (data ++ [("timestamp_received", JVal.jstr now)])]))
    ∧ (∀ (s : RecState) (f : CsvFile),
        (on_message s f now true line).1.total_readings = s.total_readings + 1
        ∧ (on_message s f now true line).2.1.rows = f.rows ++ [mkCsvRow data now]) := by
  refine ⟨fun h => ?_, fun v h => ?_, fun s f => ?_⟩
  · simp [SerialWorker.process_serial_line, hs, he, hp, h]
  · simp [SerialWorker.process_serial_line, hs, he, hp, h]
  · exact ⟨by simp [on_message, hp, write_to_csv], by simp [on_message, hp, write_to_csv]⟩

/-- C5 witness: a concrete frame with no measurement field is ignored by
the serial decoder, and one with a temperature field is emitted. -/
theorem c5_witness :
    SerialWorker.startsWithChar "\x7b\"foo\":1\x7d" lbraceC = true
    ∧ SerialWorker.endsWithChar "\x7b\"foo\":1\x7d" rbraceC = true
    ∧ parseJson "\x7b\"foo\":1\x7d" = some [("foo", JVal.jnum 1)]
    ∧ SerialWorker.process_serial_line [] "t0" "\x7b\"foo\":1\x7d" = ([], [])
    ∧ SerialWorker.process_serial_line [] "t0" "\x7b\"temperature\":2\x7d"
        = ([[("temperature", JVal.jnum 2), ("timestamp_received", JVal.jstr "t0")]],
           [SerialWorker.Event.dataEmit
             [("temperature", JVal.jnum 2), ("timestamp_received", JVal.jstr "t0")]]) :=
  ⟨by decide, by decide, by decide,
   (c5_amended_decoder [] "t0" "\x7b\"foo\":1\x7d" [("foo", JVal.jnum 1)]
     (by decide) (by decide) (by decide)).1 (by decide),
   (c5_amended_decoder [] "t0" "\x7b\"temperature\":2\x7d" [("temperature", JVal.jnum 2)]
     (by decide) (by decide) (by decide)).2.1 (JVal.jnum 2) (by decide)⟩

/-- C6: when the durable-log write for an accepted reading fails, the
reading is still stored as `last_reading` and counted in `total_readings`
(visible to status and latest queries), the log file is unchanged, the
failure is logged as a non-fatal warning, and the recording flag of the
session is untouched, so ingestion continues. -/
theorem c6_write_failure (s : ServerState) (r : RecState) (f : CsvFile) (now msg : String)
    (data : List (String × JVal)) (hr : s.recorder = some r)
    (hp : parseJson msg = some data) :
    (ingest s f now false msg).1.is_recording = s.is_recording
    ∧ (ingest s f now false msg).1.start_time = s.start_time
    ∧ (ingest s f now false msg).1.recorder
        = some { last_reading := some (data, now), total_readings := r.total_readings + 1 }
    ∧ (ingest s f now false msg).2.1 = f
    ∧ (ingest s f now false msg).2.2 = ["Failed to write to CSV"] := by
  refine ⟨?_, ?_, ?_, ?_, ?_⟩ <;> simp [ingest, hr, on_message, hp, write_to_csv]

/-- C6 witness: a failed write at a concrete recording state keeps the
reading in memory, logs the warning and leaves the log and flag alone. -/
theorem c6_witness :
    sActive.recorder = some { last_reading := none, total_readings := 3 }
    ∧ parseJson "\x7b\"temperature\":2\x7d" = some [("temperature", JVal.jnum 2)]
    ∧ (ingest sActive fEmpty "t0" false "\x7b\"temperature\":2\x7d").1.is_recording
        = sActive.is_recording
    ∧ (ingest sActive fEmpty "t0" false "\x7b\"temperature\":2\x7d").1.recorder
        = some { last_reading := some ([("temperature", JVal.jnum 2)], "t0"),
                 total_readings := 4 }
    ∧ (ingest sActive fEmpty "t0" false "\x7b\"temperature\":2\x7d").2.1 = fEmpty
    ∧ (ingest sActive fEmpty "t0" false "\x7b\"temperature\":2\x7d").2.2
        = ["Failed to write to CSV"] :=
  ⟨rfl, by decide,
   (c6_write_failure sActive { last_reading := none, total_readings := 3 } fEmpty "t0"
     "\x7b\"temperature\":2\x7d" [("temperature", JVal.jnum 2)] rfl (by decide)).1,
   (c6_write_failure sActive { last_reading := none, total_readings := 3 } fEmpty "t0"
     "\x7b\"temperature\":2\x7d" [("temperature", JVal.jnum 2)] rfl (by decide)).2.2.1,
   (c6_write_failure sActive { last_reading := none, total_readings := 3 } fEmpty "t0"
     "\x7b\"temperature\":2\x7d" [("temperature", JVal.jnum 2)] rfl (by decide)).2.2.2.1,
   (c6_write_failure sActive { last_reading := none, total_readings := 3 } fEmpty "t0"
     "\x7b\"temperature\":2\x7d" [("temperature", JVal.jnum 2)] rfl (by decide)).2.2.2.2⟩

/-- The two sequential range filters of `get_data` compute the single
conjunctive range filter of the specification. -/
theorem filter_range_eq (rows : List CsvRow) (sd ed : Option String) :
    filterEnd ed (filterStart sd rows) = readingsSpec rows sd ed := by
  cases sd with
  | none =>
    cases ed with
    | none => simp [filterStart, filterEnd, readingsSpec]
    | some d => simp [filterStart, filterEnd, readingsSpec]
  | some c =>
    cases ed with
    | none => simp [filterStart, filterEnd, readingsSpec]
    | some d =>
      simp only [filterStart, filterEnd, readingsSpec, List.filter_filter]
      exact List.filter_congr (fun a _ => Bool.and_comm _ _)

/-- C7: `get_data` returns the log rows in append order (the result is an
order-preserving subsequence of the file rows), range-filtered by
`timestamp_received` when bounds are given, then truncated to the last
`limit` rows after filtering when a (positive) limit is given; an absent
log file yields an empty success, not an error. -/
theorem c7_get_readings (file : Option CsvFile) (lim : Option Int) (sd ed : Option String)
    (hl : lim = none ∨ ∃ l : Int, lim = some l ∧ 0 < l) :
    (file = none → get_data file lim sd ed
        = { status := RespStatus.ok, data := [], total := 0, code := 200 })
    ∧ (∀ f : CsvFile, file = some f →
        (get_data file lim sd ed).status = RespStatus.ok
        ∧ (get_data file lim sd ed).data
            = (match lim with
               | none => readingsSpec f.rows sd ed
               | some l => (readingsSpec f.rows sd ed).drop
                   ((readingsSpec f.rows sd ed).length - l.toNat))
        ∧ (get_data file lim sd ed).data.Sublist f.rows) := by
  constructor
  · intro h; subst h; rfl
  · intro f h; subst h
    have hfil : filterEnd ed (filterStart sd f.rows) = readingsSpec f.rows sd ed :=
      filter_range_eq f.rows sd ed
    have hsub : (readingsSpec f.rows sd ed).Sublist f.rows := List.filter_sublist f.rows
    rcases hl with h0 | ⟨l, hlim, hpos⟩
    · subst h0
      exact ⟨rfl, by simp [get_data, hfil], by simp [get_data, hfil]; exact hsub⟩
    · subst hlim
      have hne : l ≠ 0 := by omega
      have hnn : 0 ≤ l := le_of_lt hpos
      refine ⟨rfl, ?_, ?_⟩
      · simp [get_data, hfil, hne, pyTail, hnn]
      · simp [get_data, hfil, hne, pyTail, hnn]
        exact (List.drop_sublist _ _).trans hsub

/-- C7 witness: three rows, a start bound and a limit of two. -/
theorem c7_witness :
    (get_data (some { header := fieldnames, rows := [rowT "a", rowT "b", rowT "c"] })
        (some 2) (some "b") none).data = [rowT "b", rowT "c"]
    ∧ get_data none (some 2) (some "b") none
        = { status := RespStatus.ok, data := [], total := 0, code := 200 } := by
  have h := c7_get_readings
    (some { header := fieldnames, rows := [rowT "a", rowT "b", rowT "c"] })
    (some 2) (some "b") none (Or.inr ⟨2, rfl, by decide⟩)
  have h2 := c7_get_readings none (some 2) (some "b") none (Or.inr ⟨2, rfl, by decide⟩)
  exact ⟨((h.2 _ rfl).2.1).trans (by decide), h2.1 rfl⟩

/-- A left fold of `min` is a lower bound of the seed and the folded list. -/
theorem foldl_min_le (q : Rat) (qs : List Rat) : ∀ x ∈ q :: qs, qs.foldl min q ≤ x := by
  induction qs generalizing q with
  | nil =>
    intro x hx
    simp only [List.mem_singleton] at hx
    simp [hx]
  | cons a as ih =>
    intro x hx
    simp only [List.foldl]
    have h1 : as.foldl min (min q a) ≤ min q a := ih (min q a) (min q a) (List.mem_cons_self _ _)
    rcases List.mem_cons.mp hx with h | h
    · exact h ▸ h1.trans (min_le_left q a)
    · rcases List.mem_cons.mp h with h2 | h2
      · exact h2 ▸ h1.trans (min_le_right q a)
      · exact ih (min q a) x (List.mem_cons_of_mem _ h2)

/-- A left fold of `min` is one of the seed and the folded elements. -/
theorem foldl_min_mem (q : Rat) (qs : List Rat) : qs.foldl min q ∈ q :: qs := by
  induction qs generalizing q with
  | nil => simp
  | cons a as ih =>
    simp only [List.foldl]
    rcases List.mem_cons.mp (ih (min q a)) with h2 | h2
    · rcases min_choice q a with h3 | h3
      · exact List.mem_cons.mpr (Or.inl (h2.trans h3))
      · exact List.mem_cons_of_mem _ (List.mem_cons.mpr (Or.inl (h2.trans h3)))
    · exact List.mem_cons_of_mem _ (List.mem_cons_of_mem _ h2)

/-- A left fold of `max` is an upper bound of the seed and the folded list. -/
theorem le_foldl_max (q : Rat) (qs : List Rat) : ∀ x ∈ q :: qs, x ≤ qs.foldl max q := by
  induction qs generalizing q with
  | nil =>
    intro x hx
    simp only [List.mem_singleton] at hx
    simp [hx]
  | cons a as ih =>
    intro x hx
    simp only [List.foldl]
    have h1 : max q a ≤ as.foldl max (max q a) := ih (max q a) (max q a) (List.mem_cons_self _ _)
    rcases List.mem_cons.mp hx with h | h
    · exact h ▸ (le_max_left q a).trans h1
    · rcases List.mem_cons.mp h with h2 | h2
      · exact h2 ▸ (le_max_right q a).trans h1
      · exact ih (max q a) x (List.mem_cons_of_mem _ h2)

/-- A left fold of `max` is one of the seed and the folded elements. -/
theorem foldl_max_mem (q : Rat) (qs : List Rat) : qs.foldl max q ∈ q :: qs := by
  induction qs generalizing q with
  | nil => simp
  | cons a as ih =>
    simp only [List.foldl]
    rcases List.mem_cons.mp (ih (max q a)) with h2 | h2
    · rcases max_choice q a with h3 | h3
      · exact List.mem_cons.mpr (Or.inl (h2.trans h3))
      · exact List.mem_cons_of_mem _ (List.mem_cons.mpr (Or.inl (h2.trans h3)))
    · exact List.mem_cons_of_mem _ (List.mem_cons_of_mem _ h2)

/-- C8 counterexample: the statistics objects never carry a count entry —
already the absent-log response has none under temperature — and on a log
whose one row has an empty temperature cell the zero-sample field reports
NaN, not null, so the claimed per-field count and the claimed null are
both refuted. -/
theorem c8_counterexample :
    (get_statistics none).temperature.lookup "count" = none
    ∧ (get_statistics (some { header := fieldnames, rows := [rowT "a"] })).temperature.lookup
        "count" = none
    ∧ (get_statistics (some { header := fieldnames, rows := [rowT "a"] })).temperature.lookup
        "min" = some StatVal.nan := by
  refine ⟨rfl, ?_, ?_⟩ <;> rfl

/-- C8 amended: `get_statistics` returns per-field objects holding exactly
min, max and avg (no count) for temperature, pressure and altitude — the
altitude column is absent from the recorder log and reports null
throughout, and no humidity object is built; alongside them come
`total_readings` and the first and last reading times, from one linear
scan of the full log. A present column with zero numeric samples reports
NaN (never zero); with samples `q :: qs` the reported min and max are the
genuine extrema of the samples and avg is their exact mean. -/
theorem c8_amended_statistics (f : CsvFile) :
    (get_statistics (some f)).total_readings = f.rows.length
    ∧ (get_statistics (some f)).first_reading
        = f.rows.head?.map (fun r => r.timestamp_received)
    ∧ (get_statistics (some f)).last_reading
        = f.rows.getLast?.map (fun r => r.timestamp_received)
    ∧ (get_statistics (some f)).temperature.lookup "count" = none
    ∧ (get_statistics (some f)).altitude = statsFieldAbsent
    ∧ (colSamples (f.rows.map (fun r => r.temperature)) = [] →
        (get_statistics (some f)).temperature
          = [("min", StatVal.nan), ("max", StatVal.nan), ("avg", StatVal.nan)])
    ∧ (∀ (q : Rat) (qs : List Rat),
        colSamples (f.rows.map (fun r => r.temperature)) = q :: qs →
          (get_statistics (some f)).temperature.lookup "min"
              = some (StatVal.num (qs.foldl min q))
          ∧ (get_statistics (some f)).temperature.lookup "max"
              = some (StatVal.num (qs.foldl max q))
          ∧ qs.foldl min q ∈ q :: qs ∧ qs.foldl max q ∈ q :: qs
          ∧ (∀ x ∈ q :: qs, qs.foldl min q ≤ x ∧ x ≤ qs.foldl max q)
          ∧ (get_statistics (some f)).temperature.lookup "avg"
              = some (StatVal.num ((q :: qs).sum / ((qs.length : Rat) + 1)))) := by
  refine ⟨rfl, rfl, rfl, ?_, rfl, ?_, ?_⟩
  · rcases hc : colSamples (f.rows.map (fun r => r.temperature)) with _ | ⟨q, qs⟩ <;>
      simp only [get_statistics, statsField, hc] <;> rfl
  · intro h
    simp only [get_statistics, statsField, h]
  · intro q qs h
    refine ⟨?_, ?_, foldl_min_mem q qs, foldl_max_mem q qs,
      fun x hx => ⟨foldl_min_le q qs x hx, le_foldl_max q qs x hx⟩, ?_⟩ <;>
      simp only [get_statistics, statsField, h] <;> rfl

/-- C8 witness: two temperature samples give min, max and exact mean. -/
theorem c8_witness :
    colSamples (fTwo.rows.map (fun r => r.temperature)) = [1, 3]
    ∧ (get_statistics (some fTwo)).temperature.lookup "count" = none
    ∧ (get_statistics (some fTwo)).temperature.lookup "min" = some (StatVal.num 1)
    ∧ (get_statistics (some fTwo)).temperature.lookup "avg" = some (StatVal.num 2) := by
  have h := c8_amended_statistics fTwo
  have hs : colSamples (fTwo.rows.map (fun r => r.temperature)) = [(1 : Rat), 3] := by decide
  have h7 := h.2.2.2.2.2.2 1 [3] hs
  refine ⟨hs, h.2.2.2.1, h7.1.trans ?_, h7.2.2.2.2.2.trans ?_⟩
  · norm_num [min_def]
  · norm_num

/-- C9 counterexample: for the actuator-on operation the code writes the
line AT+COOLER=ON, not the claimed SET-ACTUATOR=ON. -/
theorem c9_counterexample :
    SerialWorker.cooler_on = "AT+COOLER=ON\n"
    ∧ SerialWorker.cooler_on ≠ "SET-ACTUATOR=ON\n"
    ∧ SerialWorker.cooler_on ≠ "SET-ACTUATOR=ON" := by
  refine ⟨rfl, by decide, by decide⟩

/-- C9 amended: the outbound command vocabulary actually sent to the
serial device is AT+COOLER=ON, AT+COOLER=OFF and AT+COOLER=AUTO for the
actuator operations, and AT+STATUS, AT+DATA, AT+SETSTART=value,
AT+SETSTOP=value and AT+GETTHRESH for the other operations, each written
as one newline-terminated text line. -/
theorem c9_amended_vocabulary (t u : String) :
    SerialWorker.cooler_on = "AT+COOLER=ON\n"
    ∧ SerialWorker.cooler_off = "AT+COOLER=OFF\n"
    ∧ SerialWorker.cooler_auto = "AT+COOLER=AUTO\n"
    ∧ SerialWorker.get_status = "AT+STATUS\n"
    ∧ SerialWorker.get_data = "AT+DATA\n"
    ∧ SerialWorker.set_start_temp t = "AT+SETSTART=" ++ t ++ "\n"
    ∧ SerialWorker.set_stop_temp u = "AT+SETSTOP=" ++ u ++ "\n"
    ∧ SerialWorker.get_thresholds = "AT+GETTHRESH\n" := by
  refine ⟨rfl, rfl, rfl, rfl, rfl, ?_, ?_, rfl⟩ <;>
    simp [SerialWorker.set_start_temp, SerialWorker.set_stop_temp,
      SerialWorker.send_at_command, String.append_assoc]

/-- C10: the fallback CSV path of the data query returns the same result
whatever date filters are passed (they are ignored), and on both the
fallback path and the primary path a limit of zero behaves exactly like no
limit at all: every row is returned rather than zero rows. -/
theorem c10_fallback_and_zero_limit (rows : List CsvRow) (lim : Option Int)
    (s1 e1 s2 e2 sd ed : Option String) (file : Option CsvFile) :
    get_data_fallback rows lim s1 e1 = get_data_fallback rows lim s2 e2
    ∧ get_data_fallback rows (some 0) s1 e1 = get_data_fallback rows none s1 e1
    ∧ (get_data_fallback rows (some 0) s1 e1).data = rows
    ∧ get_data file (some 0) sd ed = get_data file none sd ed := by
  refine ⟨rfl, by simp [get_data_fallback], by simp [get_data_fallback], ?_⟩
  cases file <;> simp [get_data]
